import Mathlib

/-
  Shallow embedding of the session/lecture attendance engine of the
  qroll-Dashboard repository.

  Sources embedded:
  - src/routes/sessions.js   (in-memory session store: create, refresh-token,
                              join, end, cleanupExpiredSessions, calculateDistance)
  - src/routes/lectures.js   (lecture start / join routes, generateQRToken)
  - src/models/Attendance.js (dedup of attendance records per (lecture, student))
  - src/models/Class.js      (class roster: `students` array, consulted by the
                              lectures join route via `lecture.class.students`)

  Times are modelled as integers (milliseconds since the epoch, as produced by
  `Date.now()` / compared via `new Date() > d`).  The haversine helper
  `calculateDistance` operates on IEEE-754 doubles in the source; routes that
  call it are parameterised here by an arbitrary distance function
  `dist : Int → Int → Int → Int → Int` standing for
  `calculateDistance(lat1, lng1, lat2, lng2)`.
-/

/-- Error outcomes of the HTTP routes, one constructor per distinct error
response in src/routes/sessions.js and src/routes/lectures.js. -/
inductive ApiError where
  | invalidToken   -- 404 "Invalid or expired session token" / "Invalid or expired QR code"
  | sessionEnded   -- 400 "Session has ended"
  | outOfRange     -- 400 "You must be within <radius>m of the session location"
  | alreadyMarked  -- 400 "Attendance already marked for this session/lecture"
  | notEnrolled    -- 403 "You are not enrolled in this class"
  | notFound       -- 404/403 missing class / subject / session / unauthorized
  | activeExists   -- 400 "There is already an active lecture for this class"
deriving DecidableEq, Repr

/-- Route outcome: success or one of the error responses. -/
inductive Res where
  | ok
  | err (e : ApiError)
deriving DecidableEq, Repr

/-- Model of `session.location` in src/routes/sessions.js: `restricted` models
`location.type === 'restricted'`, the coordinates and radius model
`location.coordinates.lat/lng` and `location.radius`. -/
structure SLoc where
  restricted : Bool
  lat : Int
  lng : Int
  radius : Int
deriving DecidableEq, Repr

/-- A session object as stored in the in-memory `activeSessions` map of
src/routes/sessions.js (fields not read by any embedded operation —
`subjectName`, `qrCodeUrl`, `duration` — are omitted; `attendees` keeps the
`studentId` of each pushed attendee entry). -/
structure Session where
  sid : String
  classId : String
  teacherId : String
  qrToken : String
  startTime : Int
  endTime : Int
  isActive : Bool
  location : SLoc
  attendees : List String
deriving DecidableEq, Repr

/-- The Attendance collection restricted to the fields the join routes use for
deduplication: one entry per saved document, keyed `(lectureId, studentId)`
(src/routes/sessions.js) resp. `(lecture, student)` (src/routes/lectures.js). -/
abbrev Ledger := List (String × String)

/-- The `activeSessions` map, in insertion order (a JS `Map` iterates in
insertion order; keys `sid` are unique in any run of the program). -/
abbrev SStore := List Session

/-- Models `activeSessions.set(sessionId, mutated)` after mutating the object fetched
for `sessionId`: rewrite the entry (entries with a different id are untouched). -/
def updateSession (store : SStore) (sid : String) (f : Session → Session) : SStore :=
  store.map (fun s => if s.sid = sid then f s else s)

/-- The token lookup loop of the join route (src/routes/sessions.js:164-171):
first session in iteration order with `session.qrToken === token && session.isActive`. -/
def findByToken (store : SStore) (token : String) : Option Session :=
  store.find? (fun s => s.qrToken == token && s.isActive)

/-- The geofence test of the join route (src/routes/sessions.js:189-204): the
rejection branch fires iff `location.type === 'restricted'`, a location was
supplied, and `calculateDistance(...) > location.radius`. -/
def geoBlocked (dist : Int → Int → Int → Int → Int) (s : Session)
    (loc : Option (Int × Int)) : Bool :=
  match loc with
  | none => false
  | some l =>
      s.location.restricted &&
        decide (dist s.location.lat s.location.lng l.1 l.2 > s.location.radius)

/-- Result of one join request: the session store and attendance collection
after the call, plus the HTTP outcome. -/
structure JoinOut where
  store : SStore
  ledger : Ledger
  res : Res
deriving DecidableEq, Repr

/-- The route `router.post('/join/:token')` of src/routes/sessions.js:158-255.
Pipeline, in source order: token lookup; end-time check (which also flips
`isActive` of the found session); geofence check (skipped when no location was
sent); duplicate-attendance check against the Attendance collection; then save
the attendance document and push the student onto `session.attendees`.
Note: the route never consults the class roster. -/
def joinSession (now : Int) (dist : Int → Int → Int → Int → Int)
    (store : SStore) (ledger : Ledger)
    (token studentId : String) (loc : Option (Int × Int)) : JoinOut :=
  match findByToken store token with
  | none => ⟨store, ledger, .err .invalidToken⟩
  | some target =>
    if now > target.endTime then
      ⟨updateSession store target.sid (fun s => { s with isActive := false }),
       ledger, .err .sessionEnded⟩
    else if geoBlocked dist target loc then
      ⟨store, ledger, .err .outOfRange⟩
    else if (target.sid, studentId) ∈ ledger then
      ⟨store, ledger, .err .alreadyMarked⟩
    else
      ⟨updateSession store target.sid
         (fun s => { s with attendees := s.attendees ++ [studentId] }),
       ledger ++ [(target.sid, studentId)], .ok⟩

/-- The route `router.post('/:sessionId/refresh-token')` of src/routes/sessions.js:115-155:
404 unless the session exists and belongs to the caller; 400 when
`!session.isActive || now > session.endTime`; otherwise install the freshly
generated token. -/
def refreshToken (now : Int) (store : SStore)
    (sessionId teacherId newToken : String) : SStore × Res :=
  match store.find? (fun s => s.sid == sessionId) with
  | none => (store, .err .notFound)
  | some s =>
    if s.teacherId ≠ teacherId then (store, .err .notFound)
    else if s.isActive = false ∨ now > s.endTime then (store, .err .sessionEnded)
    else (updateSession store sessionId (fun t => { t with qrToken := newToken }), .ok)

/-- The route `router.post('/create')` of src/routes/sessions.js:52-112: after the class
ownership and subject checks (modelled by the booleans `classOk`, `subjectOk`),
the session is stored with `startTime = now`, `endTime = now + duration*60*1000`,
`isActive = true` and no attendees.  No window validation is performed. -/
def createSession (now : Int) (store : SStore) (classId : String)
    (classOk subjectOk : Bool) (duration : Int)
    (sessionId token teacherId : String) (loc : SLoc) : SStore × Res :=
  if classOk = false then (store, .err .notFound)
  else if subjectOk = false then (store, .err .notFound)
  else
    (store ++ [{ sid := sessionId, classId := classId, teacherId := teacherId,
                 qrToken := token, startTime := now,
                 endTime := now + duration * 60000, isActive := true,
                 location := loc, attendees := [] }], .ok)

/-- The route `router.post('/:sessionId/end')` of src/routes/sessions.js:367-395: mark the
session inactive and stamp `endTime`; the session stays in the map. -/
def endSession (now : Int) (store : SStore) (sessionId teacherId : String) :
    SStore × Res :=
  match store.find? (fun s => s.sid == sessionId) with
  | none => (store, .err .notFound)
  | some s =>
    if s.teacherId ≠ teacherId then (store, .err .notFound)
    else (updateSession store sessionId
            (fun t => { t with isActive := false, endTime := now }), .ok)

/-- The periodic `cleanupExpiredSessions` of src/routes/sessions.js:398-407: for every
session with `now > session.endTime`, set `isActive = false` and immediately
`activeSessions.delete(sessionId)`; all other sessions are untouched.  The
function returns no value. -/
def cleanupExpiredSessions (now : Int) (store : SStore) : SStore :=
  store.filter (fun s => !decide (now > s.endTime))

/-! ## Lecture routes (src/routes/lectures.js) -/

/-- A lecture document as used by the lecture routes; `students` is the roster
of the populated class (`lecture.class.students`), `status` the string status
field the start route queries and writes. -/
structure Lecture where
  lid : String
  classId : String
  students : List String
  qrToken : String
  tokenExpiry : Int
  isActive : Bool
  status : String
deriving DecidableEq, Repr

/-- The `Lecture.findOne({qrToken, isActive: true, tokenExpiry: {$gt: now}})`
query of the lecture join route (src/routes/lectures.js:235-239). -/
def findLecture (now : Int) (lectures : List Lecture) (tok : String) :
    Option Lecture :=
  lectures.find? (fun l => l.qrToken == tok && l.isActive && decide (l.tokenExpiry > now))

/-- The route `router.post('/join/:qrToken')` of src/routes/lectures.js:229-304:
token lookup; roster check `lecture.class.students.includes(user)` failing 403;
duplicate check against Attendance `(lecture, student)`; then save. -/
def lecturesJoin (now : Int) (lectures : List Lecture) (ledger : Ledger)
    (tok userId : String) : Ledger × Res :=
  match findLecture now lectures tok with
  | none => (ledger, .err .invalidToken)
  | some lec =>
    if userId ∈ lec.students then
      if (lec.lid, userId) ∈ ledger then (ledger, .err .alreadyMarked)
      else (ledger ++ [(lec.lid, userId)], .ok)
    else (ledger, .err .notEnrolled)

/-- The route `router.post('/start')` of src/routes/lectures.js:12-109: required-field
check, class ownership and subject checks (modelled by `classOk`, `subjectOk`),
then `Lecture.findOne({classId, status: 'active'})` — if a lecture is found the
route answers 400 and creates nothing; otherwise the new lecture is saved with
`status: 'active'` for this class. -/
def lecturesStart (lectures : List Lecture) (classId subjectId : String)
    (classOk subjectOk : Bool) (newLec : Lecture) : List Lecture × Res :=
  if classId = "" ∨ subjectId = "" then (lectures, .err .notFound)
  else if classOk = false then (lectures, .err .notFound)
  else if subjectOk = false then (lectures, .err .notFound)
  else
    match lectures.find? (fun l => l.classId == classId && l.status == "active") with
    | some _ => (lectures, .err .activeExists)
    | none => (lectures ++ [{ newLec with classId := classId, status := "active" }], .ok)

/-- A class document restricted to its roster (src/models/Class.js `students`). -/
structure ClassDoc where
  cid : String
  students : List String
deriving DecidableEq, Repr

/-- Roster lookup `classId → students`, the enrollment source the spec's
`Redeem` is required to consult. -/
def classStudents (classes : List ClassDoc) (cid : String) : List String :=
  ((classes.find? (fun c => c.cid == cid)).map ClassDoc.students).getD []

/-! ## Token issuers -/

/-- Digit characters of `Number.prototype.toString(36)` (and of hex encoding,
its restriction to values below 16): `0`-`9` then `a`-`z`. -/
def b36Char (d : Nat) : Char :=
  if d < 10 then Char.ofNat (48 + d) else Char.ofNat (87 + d)

/-- Base-36 digit list of `n`, most significant first, as produced by
`n.toString(36)` for a nonnegative integer.  Structural recursion on a fuel
argument so that it evaluates by kernel reduction; `n + 1` fuel always
suffices. -/
def b36DigitsAux : Nat → Nat → List Nat
  | 0, _ => []
  | fuel + 1, n => if n < 36 then [n] else b36DigitsAux fuel (n / 36) ++ [n % 36]

def b36Digits (n : Nat) : List Nat := b36DigitsAux (n + 1) n

/-- Encoding `n.toString(36)`. -/
def toB36 (n : Nat) : String := ⟨(b36Digits n).map b36Char⟩

/-- The helper `generateQRToken` of src/routes/lectures.js:493-497 (identical code in
`lectureSchema.methods.refreshQRToken`):
`` `qr_${Date.now().toString(36)}_${randomStr}` `` where `randomStr` is the
`Math.random().toString(36).substring(2, 15)` part, taken here as a parameter. -/
def generateQRToken (nowMs : Nat) (randStr : String) : String :=
  "qr_" ++ toB36 nowMs ++ "_" ++ randStr

/-- Numeric value of a base-36 digit character. -/
def b36Val (c : Char) : Nat :=
  if c.toNat ≥ 97 then c.toNat - 87 else c.toNat - 48

/-- Read a base-36 digit-character list back into a number. -/
def fromB36 (l : List Char) : Nat :=
  l.foldl (fun acc c => acc * 36 + b36Val c) 0

/-- Recover the issuing timestamp from a lectures-route token: strip the
literal `qr_` head and read the base-36 run up to the next separator. -/
def extractTimestamp (tok : String) : Option Nat :=
  if tok.data.take 3 = ['q', 'r', '_'] then
    let ts := (tok.data.drop 3).takeWhile (fun c => c != '_')
    if ts = [] then none else some (fromB36 ts)
  else none

/-- One byte to two hex characters, as in `Buffer.prototype.toString('hex')`. -/
def byteToHex (b : Nat) : List Char := [b36Char (b / 16), b36Char (b % 16)]

/-- Hex encoding of a byte sequence, character list form. -/
def bytesToHexL : List Nat → List Char
  | [] => []
  | b :: bs => byteToHex b ++ bytesToHexL bs

/-- Encoding `crypto.randomBytes(16).toString('hex')` of `generateQRCode`
(src/routes/sessions.js:31-49), as a function of the drawn bytes. -/
def bytesToHex (bs : List Nat) : String := ⟨bytesToHexL bs⟩

/-! ## Shared concrete inputs for witnesses and counterexamples -/

/-- A stand-in for `calculateDistance` that reports every pair of points as a
million metres apart. -/
def demoDist : Int → Int → Int → Int → Int := fun _ _ _ _ => 1000000

/-- An unrestricted session location (`location.type !== 'restricted'`). -/
def openLoc : SLoc := ⟨false, 0, 0, 0⟩

/-! ## Helper lemmas -/

/-- Rewriting one session leaves every projection that the rewrite does not
touch unchanged across the store. -/
theorem updateSession_map {β : Type} (g : Session → β) (store : SStore)
    (sid : String) (f : Session → Session) (hf : ∀ s, g (f s) = g s) :
    (updateSession store sid f).map g = store.map g := by
  simp only [updateSession, List.map_map]
  refine List.map_congr_left ?_
  intro s _
  by_cases h : s.sid = sid <;> simp [h, hf]

/-- A successful join rewrites the found session's attendee list and appends
the attendance record; nothing else can produce `.ok`. -/
theorem joinSession_ok_shape (now : Int) (dist : Int → Int → Int → Int → Int)
    (store : SStore) (ledger : Ledger) (tok p : String)
    (loc : Option (Int × Int)) (s : Session)
    (hfind : findByToken store tok = some s)
    (hok : (joinSession now dist store ledger tok p loc).res = .ok) :
    joinSession now dist store ledger tok p loc
      = ⟨updateSession store s.sid
           (fun t => { t with attendees := t.attendees ++ [p] }),
         ledger ++ [(s.sid, p)], .ok⟩ := by
  unfold joinSession at hok ⊢
  rw [hfind] at hok ⊢
  by_cases h1 : now > s.endTime
  · simp [h1] at hok
  · by_cases h2 : geoBlocked dist s loc = true
    · simp [h1, h2] at hok
    · by_cases h3 : (s.sid, p) ∈ ledger
      · simp [h1, h2, h3] at hok
      · simp [h1, h2, h3]

/-! ## C1 — enrollment check on redemption -/

/-- Concrete inputs for C1: class `c1` has roster `["bob"]`; `eve` is enrolled
nowhere; session `s1` of class `c1` is active with window `[0, 1000]`. -/
def c1Classes : List ClassDoc := [⟨"c1", ["bob"]⟩]

def c1Session : Session :=
  ⟨"s1", "c1", "T", "tok1", 0, 1000, true, openLoc, []⟩

/-- C1 (counterexample): the sessions join route records attendance for a
principal who is in no roster at all.  `eve` is not among class `c1`'s
students, the presented token resolves to the active session `s1` at an
instant inside its window, yet the call succeeds and stores an attendance
record — it does not fail `NotEnrolled`. -/
theorem c1_sessions_join_ignores_roster :
    ("eve" ∉ classStudents c1Classes "c1")
    ∧ c1Session.isActive = true ∧ ¬ (5 : Int) > c1Session.endTime
    ∧ joinSession 5 demoDist [c1Session] [] "tok1" "eve" none
        = ⟨[{ c1Session with attendees := ["eve"] }], [("s1", "eve")], .ok⟩ := by
  decide

/-- C1 (amended): on the lectures join route, whenever the token resolves to a
lecture, a principal not in the lecture's class roster fails `NotEnrolled` and
no attendance is recorded; the sessions join route performs no enrollment
check at all. -/
theorem c1_lectures_join_not_enrolled (now : Int) (lectures : List Lecture)
    (ledger : Ledger) (tok userId : String) (lec : Lecture)
    (hfind : findLecture now lectures tok = some lec)
    (hmem : userId ∉ lec.students) :
    lecturesJoin now lectures ledger tok userId = (ledger, .err .notEnrolled) := by
  simp [lecturesJoin, hfind, hmem]

def c1Lec : Lecture := ⟨"L1", "c1", ["bob"], "qtok", 100, true, "active"⟩

/-- C1 (witness): `eve` presenting the valid lecture token of `L1` is turned
away with `NotEnrolled` and the attendance collection stays empty. -/
theorem c1_lectures_join_not_enrolled_witness :
    findLecture 5 [c1Lec] "qtok" = some c1Lec
    ∧ lecturesJoin 5 [c1Lec] [] "qtok" "eve" = ([], .err .notEnrolled) :=
  ⟨by decide,
   c1_lectures_join_not_enrolled 5 [c1Lec] [] "qtok" "eve" c1Lec
     (by decide) (by decide)⟩

/-! ## C2 — geofence enforcement -/

/-- Active session with a restricted (geofenced) location, radius 50. -/
def c2Session : Session :=
  ⟨"s2", "c2", "T", "tok2", 0, 1000, true, ⟨true, 10, 20, 50⟩, []⟩

/-- C2 (counterexample): when the caller supplies no location to a geofenced
session, the join route does not fail `LocationRequired` — the geofence check
is skipped and attendance is recorded (here under a distance function that
would have reported every point a million metres away). -/
theorem c2_missing_location_not_rejected :
    c2Session.location.restricted = true
    ∧ joinSession 5 demoDist [c2Session] [] "tok2" "stu" none
        = ⟨[{ c2Session with attendees := ["stu"] }], [("s2", "stu")], .ok⟩ := by
  decide

/-- C2 (amended): for a session whose geofence is set and whose window has not
lapsed, a supplied location that fails the radius check makes the call fail
`OutOfRange` with store and attendance unchanged; a missing location, however,
is not rejected: the geofence check is skipped and the call proceeds to record
attendance. -/
theorem c2_geofence_checks (now : Int) (dist : Int → Int → Int → Int → Int)
    (store : SStore) (ledger : Ledger) (tok p : String) (s : Session)
    (hfind : findByToken store tok = some s)
    (hwin : ¬ now > s.endTime) :
    (∀ l : Int × Int, geoBlocked dist s (some l) = true →
        joinSession now dist store ledger tok p (some l)
          = ⟨store, ledger, .err .outOfRange⟩)
    ∧ ((s.sid, p) ∉ ledger →
        (joinSession now dist store ledger tok p none).res = .ok) := by
  constructor
  · intro l hb
    simp [joinSession, hfind, hwin, hb]
  · intro hnm
    simp [joinSession, hfind, hwin, geoBlocked, hnm]

/-- C2 (witness): a caller 1,000,000 m away from session `s2` (radius 50) is
rejected `OutOfRange` and nothing is recorded. -/
theorem c2_geofence_checks_witness :
    joinSession 5 demoDist [c2Session] [] "tok2" "stu" (some (99, 99))
      = ⟨[c2Session], [], .err .outOfRange⟩ :=
  (c2_geofence_checks 5 demoDist [c2Session] [] "tok2" "stu" c2Session
      (by decide) (by decide)).1 (99, 99) (by decide)

/-! ## C5 — sweep boundary and extent -/

/-- Active session whose window ends exactly at instant 100. -/
def c5Session : Session := ⟨"s5", "c5", "T", "tok5", 0, 100, true, openLoc, []⟩

/-- C5 (counterexample): `Sweep(now)` does not end every Active session with
`windowEnd ≤ now`: at `now = windowEnd` (the cleanup condition is the strict
`now > session.endTime`) the session survives the sweep unchanged — still
present and still Active. -/
theorem c5_sweep_misses_boundary :
    c5Session.isActive = true ∧ c5Session.endTime ≤ (100 : Int)
    ∧ cleanupExpiredSessions 100 [c5Session] = [c5Session] := by
  decide

/-- C5 (amended): the cleanup pass removes from the store exactly the sessions
with `windowEnd < now` — strictly expired ones, regardless of their status —
and leaves every other session untouched (it returns no count). -/
theorem c5_sweep_removes_strictly_expired (now : Int) (store : SStore)
    (s : Session) :
    s ∈ cleanupExpiredSessions now store ↔ s ∈ store ∧ now ≤ s.endTime := by
  simp [cleanupExpiredSessions, List.mem_filter, Int.not_lt]

/-- C5 (witness): instance of the characterization at a concrete store. -/
theorem c5_sweep_removes_strictly_expired_witness :
    c5Session ∈ cleanupExpiredSessions 100 [c5Session]
      ↔ c5Session ∈ [c5Session] ∧ (100 : Int) ≤ c5Session.endTime :=
  c5_sweep_removes_strictly_expired 100 [c5Session] c5Session

/-! ## C7 — session creation without window validation -/

/-- C7 (counterexample): creating a session with `duration = 0` succeeds and
stores a session whose `windowEnd` equals its `windowStart` — no
`InvalidWindow` failure, and the store grows. -/
theorem c7_zero_duration_session_created :
    (createSession 1000 [] "c7" true true 0 "s7" "tok7" "T" openLoc).2 = .ok
    ∧ ∃ s ∈ (createSession 1000 [] "c7" true true 0 "s7" "tok7" "T" openLoc).1,
        s.endTime ≤ s.startTime := by
  decide

/-- C7 (amended): session creation performs no window validation: once the
class-ownership and subject checks pass it always appends a session with
`windowStart = now` and `windowEnd = now + duration * 60000`, even when
`duration ≤ 0` makes `windowEnd ≤ windowStart`. -/
theorem c7_create_accepts_any_window (now : Int) (store : SStore)
    (classId : String) (duration : Int) (sessionId token teacherId : String)
    (loc : SLoc) (hdur : duration ≤ 0) :
    createSession now store classId true true duration sessionId token teacherId loc
      = (store ++ [{ sid := sessionId, classId := classId, teacherId := teacherId,
                     qrToken := token, startTime := now,
                     endTime := now + duration * 60000, isActive := true,
                     location := loc, attendees := [] }], .ok)
    ∧ now + duration * 60000 ≤ now := by
  refine ⟨rfl, ?_⟩
  omega

/-- C7 (witness): a session of duration −5 minutes is created with a window
that ends before it starts. -/
theorem c7_create_accepts_any_window_witness :
    createSession 1000 [] "c7" true true (-5) "s7" "tok7" "T" openLoc
      = ([{ sid := "s7", classId := "c7", teacherId := "T", qrToken := "tok7",
            startTime := 1000, endTime := 1000 + (-5) * 60000, isActive := true,
            location := openLoc, attendees := [] }], .ok)
    ∧ (1000 : Int) + (-5) * 60000 ≤ 1000 :=
  c7_create_accepts_any_window 1000 [] "c7" (-5) "s7" "tok7" "T" openLoc
    (by decide)

/-! ## C6 — no retention period before removal -/

/-- Active session with attendee `amy`, window already over at instant 200. -/
def c6Session : Session := ⟨"s6", "c6", "T", "tok6", 0, 100, true, openLoc, ["amy"]⟩

/-- C6 (counterexample): a session that is still Active (it has never been
Ended) is removed by a single cleanup pass — ending and removal happen in the
same step, and its attendee list is gone from the store. -/
theorem c6_removed_in_same_sweep :
    c6Session.isActive = true ∧ c6Session ∈ [c6Session]
    ∧ cleanupExpiredSessions 200 [c6Session] = [] := by
  decide

/-- C6 (amended): the manual end operation leaves the session — with its
attendee list — in the store, but the cleanup pass removes every expired
session immediately, in the same call that ends it: there is no retention
period, and a just-expired session's attendees are no longer queryable. -/
theorem c6_no_retention (now : Int) (store : SStore) :
    (∀ (sessionId teacherId : String) (store' : SStore),
        endSession now store sessionId teacherId = (store', .ok) →
        store'.map (fun s => (s.sid, s.attendees))
          = store.map (fun s => (s.sid, s.attendees)))
    ∧ (∀ s ∈ store, now > s.endTime → s ∉ cleanupExpiredSessions now store) := by
  constructor
  · intro sessionId teacherId store' h
    unfold endSession at h
    cases hfind : store.find? (fun s => s.sid == sessionId) with
    | none => rw [hfind] at h; simp at h
    | some s =>
      simp only [hfind] at h
      by_cases ht : s.teacherId ≠ teacherId
      · rw [if_pos ht] at h; simp at h
      · rw [if_neg ht] at h
        injection h with h1 h2
        rw [← h1]
        exact updateSession_map (fun s => (s.sid, s.attendees)) store sessionId
          (fun t => { t with isActive := false, endTime := now }) (fun s => rfl)
  · intro s hs hexp hmem
    rw [cleanupExpiredSessions, List.mem_filter] at hmem
    simp [hexp] at hmem

/-- C6 (witness): manually ending session `s6` keeps it (and `amy`'s record)
in the store; the expired-session cleanup removes such a session outright. -/
theorem c6_no_retention_witness :
    ((endSession 150 [c6Session] "s6" "T").1.map (fun s => (s.sid, s.attendees))
      = [c6Session].map (fun s => (s.sid, s.attendees)))
    ∧ c6Session ∉ cleanupExpiredSessions 200 [c6Session] :=
  ⟨(c6_no_retention 150 [c6Session]).1 "s6" "T" _ (by decide),
   (c6_no_retention 200 [c6Session]).2 c6Session (by decide) (by decide)⟩

/-! ## C3 — rotation permanently invalidates the old token -/

/-- C3 (confirmed): suppose a token refresh for session `sid` succeeds,
producing store `store'`, the retired token `oldTok` was held by no session
other than `sid` (token uniqueness across sessions), and the fresh token
differs from it.  Then (i) any subsequent redeem presenting `oldTok` fails
`InvalidToken` and changes nothing, and (ii) in the updated store at most one
token value resolves to any single session. -/
theorem c3_rotation_invalidates_old_token
    (now now' : Int) (dist : Int → Int → Int → Int → Int)
    (store store' : SStore) (ledger : Ledger)
    (sid teacherId newTok oldTok p : String) (loc : Option (Int × Int))
    (hrot : refreshToken now store sid teacherId newTok = (store', .ok))
    (hold : ∀ s ∈ store, s.qrToken = oldTok → s.sid = sid)
    (hne : newTok ≠ oldTok)
    (hnodup : (store.map Session.sid).Nodup) :
    joinSession now' dist store' ledger oldTok p loc
      = ⟨store', ledger, .err .invalidToken⟩
    ∧ (∀ (t₁ t₂ : String) (s₁ s₂ : Session),
        findByToken store' t₁ = some s₁ → findByToken store' t₂ = some s₂ →
        s₁.sid = s₂.sid → t₁ = t₂) := by
  -- extract the success branch of the refresh
  have hstore' : store' = updateSession store sid
      (fun t => { t with qrToken := newTok }) := by
    unfold refreshToken at hrot
    cases hfind : store.find? (fun s => s.sid == sid) with
    | none => rw [hfind] at hrot; simp at hrot
    | some s =>
      simp only [hfind] at hrot
      by_cases ht : s.teacherId ≠ teacherId
      · rw [if_pos ht] at hrot; simp at hrot
      · rw [if_neg ht] at hrot
        by_cases hd : s.isActive = false ∨ now > s.endTime
        · rw [if_pos hd] at hrot; simp at hrot
        · rw [if_neg hd] at hrot
          injection hrot with h1 h2
          exact h1.symm
  -- the retired token no longer resolves to anything
  have hnone : findByToken store' oldTok = none := by
    rw [findByToken, List.find?_eq_none]
    intro u hu
    rw [hstore', updateSession, List.mem_map] at hu
    obtain ⟨s, hs, rfl⟩ := hu
    by_cases hid : s.sid = sid
    · simp only [hid, if_pos]
      have : ({ s with qrToken := newTok } : Session).qrToken ≠ oldTok := hne
      simp [this]
    · simp only [hid, if_neg, if_false]
      have : s.qrToken ≠ oldTok := fun hq => hid (hold s hs hq)
      simp [this]
  refine ⟨by simp [joinSession, hnone], ?_⟩
  -- at most one token resolves to a given session
  have hnodup' : (store'.map Session.sid).Nodup := by
    rw [hstore', updateSession_map Session.sid store sid
      (fun t => { t with qrToken := newTok }) (fun s => rfl)]
    exact hnodup
  intro t₁ t₂ s₁ s₂ h₁ h₂ hsid
  rw [findByToken] at h₁ h₂
  have m₁ := List.mem_of_find?_eq_some h₁
  have m₂ := List.mem_of_find?_eq_some h₂
  have p₁ := List.find?_some h₁
  have p₂ := List.find?_some h₂
  rw [Bool.and_eq_true, beq_iff_eq] at p₁ p₂
  have : s₁ = s₂ := List.inj_on_of_nodup_map hnodup' m₁ m₂ hsid
  rw [← p₁.1, ← p₂.1, this]

/-- Concrete session for the C3 witness: active, window `[0, 1000]`, current
token `oldT`. -/
def c3Session : Session := ⟨"s3", "c3", "T", "oldT", 0, 1000, true, openLoc, []⟩

/-- C3 (witness): after rotating `s3`'s token from `oldT` to `newT`, redeeming
`oldT` a moment later fails `InvalidToken` and records nothing. -/
theorem c3_rotation_invalidates_old_token_witness :
    refreshToken 5 [c3Session] "s3" "T" "newT"
      = ([{ c3Session with qrToken := "newT" }], .ok)
    ∧ joinSession 6 demoDist [{ c3Session with qrToken := "newT" }] [] "oldT" "p" none
      = ⟨[{ c3Session with qrToken := "newT" }], [], .err .invalidToken⟩ :=
  ⟨by decide,
   (c3_rotation_invalidates_old_token 5 6 demoDist [c3Session]
      [{ c3Session with qrToken := "newT" }] [] "s3" "T" "newT" "oldT" "p" none
      (by decide) (by decide) (by decide) (by decide)).1⟩

/-! ## C4 — at most one attendance record per (session, principal) -/

/-- C4 (confirmed): once a principal's redeem for a session has succeeded,
any later redeem by the same principal whose token resolves to that same
session — inside the window and past the geofence — fails `AlreadyMarked` and
changes neither the store nor the attendance collection; moreover every join
preserves distinctness of the `(session, principal)` attendance pairs. -/
theorem c4_attendance_at_most_once
    (now₁ now₂ : Int) (dist₁ dist₂ : Int → Int → Int → Int → Int)
    (store : SStore) (ledger : Ledger) (tok₁ tok₂ p : String)
    (loc₁ loc₂ : Option (Int × Int)) (s₁ s₂ : Session)
    (hf₁ : findByToken store tok₁ = some s₁)
    (hok : (joinSession now₁ dist₁ store ledger tok₁ p loc₁).res = .ok)
    (hf₂ : findByToken (joinSession now₁ dist₁ store ledger tok₁ p loc₁).store tok₂
             = some s₂)
    (hsid : s₂.sid = s₁.sid)
    (hwin : ¬ now₂ > s₂.endTime)
    (hgeo : geoBlocked dist₂ s₂ loc₂ = false) :
    joinSession now₂ dist₂ (joinSession now₁ dist₁ store ledger tok₁ p loc₁).store
        (joinSession now₁ dist₁ store ledger tok₁ p loc₁).ledger tok₂ p loc₂
      = ⟨(joinSession now₁ dist₁ store ledger tok₁ p loc₁).store,
         (joinSession now₁ dist₁ store ledger tok₁ p loc₁).ledger,
         .err .alreadyMarked⟩
    ∧ (∀ (now : Int) (dist : Int → Int → Int → Int → Int) (st : SStore)
         (led : Ledger) (tok q : String) (loc : Option (Int × Int)),
        led.Nodup → ((joinSession now dist st led tok q loc).ledger).Nodup) := by
  have hshape := joinSession_ok_shape now₁ dist₁ store ledger tok₁ p loc₁ s₁ hf₁ hok
  constructor
  · rw [hshape] at hf₂ ⊢
    have hmem : (s₂.sid, p) ∈ ledger ++ [(s₁.sid, p)] := by
      rw [hsid]
      exact List.mem_append_right _ (List.mem_singleton.mpr rfl)
    simp only [joinSession, hf₂, if_neg hwin, hgeo, Bool.false_eq_true, if_false,
      if_pos hmem]
  · intro now dist st led tok q loc hnd
    unfold joinSession
    cases hfind : findByToken st tok with
    | none => exact hnd
    | some t =>
      by_cases h1 : now > t.endTime
      · simp only [if_pos h1]; exact hnd
      · by_cases h2 : geoBlocked dist t loc = true
        · simp only [if_neg h1, h2, if_true]; exact hnd
        · by_cases h3 : (t.sid, q) ∈ led
          · simp only [if_neg h1, h2, Bool.false_eq_true, if_false, if_pos h3]
            exact hnd
          · simp only [if_neg h1, h2, Bool.false_eq_true, if_false, if_neg h3]
            simp [List.nodup_append, hnd, h3]

/-- Concrete session for the C4 witness: active, window `[0, 1000]`. -/
def c4Session : Session := ⟨"s4", "c4", "T", "tok4", 0, 1000, true, openLoc, []⟩

/-- C4 (witness): `p` redeems `tok4` once successfully; presenting the same
token again is refused `AlreadyMarked` with store and records unchanged. -/
theorem c4_attendance_at_most_once_witness :
    joinSession 2 demoDist (joinSession 1 demoDist [c4Session] [] "tok4" "p" none).store
        (joinSession 1 demoDist [c4Session] [] "tok4" "p" none).ledger "tok4" "p" none
      = ⟨(joinSession 1 demoDist [c4Session] [] "tok4" "p" none).store,
         (joinSession 1 demoDist [c4Session] [] "tok4" "p" none).ledger,
         .err .alreadyMarked⟩ :=
  (c4_attendance_at_most_once 1 2 demoDist demoDist [c4Session] [] "tok4" "tok4"
      "p" none none c4Session { c4Session with attendees := ["p"] }
      (by decide) (by decide) (by decide) (by decide) (by decide) (by decide)).1

/-! ## C10 — at most one active lecture per class -/

/-- C10 (confirmed): starting a lecture for a class that already has a lecture
with status `active` fails with the already-active error and leaves the
lecture store unchanged. -/
theorem c10_second_active_lecture_blocked
    (lectures : List Lecture) (classId subjectId : String) (newLec lec : Lecture)
    (hmem : lec ∈ lectures) (hc : lec.classId = classId)
    (hst : lec.status = "active")
    (hcne : classId ≠ "") (hsne : subjectId ≠ "") :
    lecturesStart lectures classId subjectId true true newLec
      = (lectures, .err .activeExists) := by
  unfold lecturesStart
  rw [if_neg (by push_neg; exact ⟨hcne, hsne⟩), if_neg (by simp), if_neg (by simp)]
  cases hfind : lectures.find? (fun l => l.classId == classId && l.status == "active") with
  | none =>
    exact absurd (List.find?_eq_none.mp hfind lec hmem) (by simp [hc, hst])
  | some x => rfl

def c10Lec : Lecture := ⟨"L0", "cls", ["a"], "qt", 10, true, "active"⟩
def c10New : Lecture := ⟨"L1", "cls", ["a"], "qt2", 10, true, "active"⟩

/-- C10 (witness): with lecture `L0` active for class `cls`, starting `L1`
for `cls` is refused and the store still holds exactly `L0`. -/
theorem c10_second_active_lecture_blocked_witness :
    lecturesStart [c10Lec] "cls" "sub" true true c10New
      = ([c10Lec], .err .activeExists) :=
  c10_second_active_lecture_blocked [c10Lec] "cls" "sub" c10New c10Lec
    (by decide) (by decide) (by decide) (by decide) (by decide)

/-! ## C8 — token issuer shape -/

/-- Every digit the base-36 expansion emits is below 36. -/
theorem b36DigitsAux_lt :
    ∀ (fuel n : Nat), n < fuel → ∀ d ∈ b36DigitsAux fuel n, d < 36 := by
  intro fuel
  induction fuel with
  | zero => intro n hn; omega
  | succ f ih =>
    intro n hn d hd
    by_cases h : n < 36
    · simp [b36DigitsAux, h] at hd
      omega
    · simp only [b36DigitsAux, h, if_false] at hd
      rcases List.mem_append.mp hd with h1 | h2
      · exact ih (n / 36) (by omega) d h1
      · have : d = n % 36 := by simpa using h2
        omega

/-- The base-36 expansion is never empty. -/
theorem b36DigitsAux_ne_nil (fuel n : Nat) (hn : n < fuel) :
    b36DigitsAux fuel n ≠ [] := by
  cases fuel with
  | zero => omega
  | succ f =>
    by_cases h : n < 36 <;> simp [b36DigitsAux, h]

/-- Folding the base-36 digits back up recovers the number. -/
theorem b36DigitsAux_foldl :
    ∀ (fuel n acc : Nat), n < fuel →
      (b36DigitsAux fuel n).foldl (fun a d => a * 36 + d) acc
        = acc * 36 ^ (b36DigitsAux fuel n).length + n := by
  intro fuel
  induction fuel with
  | zero => intro n acc hn; omega
  | succ f ih =>
    intro n acc hn
    by_cases h : n < 36
    · simp [b36DigitsAux, h]
    · simp only [b36DigitsAux, h, if_false, List.foldl_append, List.length_append,
        List.foldl_cons, List.foldl_nil, List.length_cons, List.length_nil]
    
      rw [ih (n / 36) acc (by omega)]
      calc (acc * 36 ^ (b36DigitsAux f (n / 36)).length + n / 36) * 36 + n % 36
          = acc * (36 ^ (b36DigitsAux f (n / 36)).length * 36)
              + (n / 36 * 36 + n % 36) := by ring
        _ = acc * 36 ^ ((b36DigitsAux f (n / 36)).length + (0 + 1)) + n := by
              rw [← pow_succ]
              congr 2
              omega

/-- Reading a base-36 digit character back yields the digit. -/
theorem b36Val_b36Char : ∀ d, d < 36 → b36Val (b36Char d) = d := by decide

/-- No base-36 digit character is the separator. -/
theorem b36Char_ne_sep : ∀ d, d < 36 → (b36Char d != '_') = true := by decide

/-- A `takeWhile` run swallows a prefix of satisfying elements and halts at the
first falsifying one. -/
theorem takeWhile_append_halt {α : Type} (p : α → Bool) (l₁ l₂ : List α) (x : α)
    (h : ∀ c ∈ l₁, p c = true) (hx : p x = false) :
    (l₁ ++ x :: l₂).takeWhile p = l₁ := by
  induction l₁ with
  | nil => simp [List.takeWhile_cons, hx]
  | cons a t ih =>
    have ha := h a (List.mem_cons_self a t)
    simp [List.takeWhile_cons, ha, ih (fun c hc => h c (List.mem_cons_of_mem a hc))]

/-- Folding char-level digit reading over mapped digits matches the numeric
fold. -/
theorem foldl_map_b36Val (l : List Nat) (h : ∀ d ∈ l, d < 36) :
    ∀ acc : Nat,
      (l.map b36Char).foldl (fun a c => a * 36 + b36Val c) acc
        = l.foldl (fun a d => a * 36 + d) acc := by
  induction l with
  | nil => intro acc; rfl
  | cons d t ih =>
    intro acc
    simp only [List.map_cons, List.foldl_cons]
    rw [b36Val_b36Char d (h d (List.mem_cons_self d t))]
    exact ih (fun x hx => h x (List.mem_cons_of_mem d hx)) _

/-- Round trip: reading the base-36 character expansion recovers the number. -/
theorem fromB36_toB36 (n : Nat) : fromB36 ((b36Digits n).map b36Char) = n := by
  unfold fromB36 b36Digits
  rw [foldl_map_b36Val _ (b36DigitsAux_lt (n + 1) n (by omega))]
  rw [b36DigitsAux_foldl (n + 1) n 0 (by omega)]
  omega

/-- Concatenation of strings concatenates their character data. -/
theorem strData_append (s t : String) : (s ++ t).data = s.data ++ t.data := by
  cases s; cases t; rfl

/-- The hex encoding of `k` bytes has exactly `2 * k` characters. -/
theorem bytesToHexL_length (bs : List Nat) : (bytesToHexL bs).length = 2 * bs.length := by
  induction bs with
  | nil => rfl
  | cons b t ih => simp [bytesToHexL, byteToHex, ih]; omega

/-- C8 (counterexample): the lecture-route token issuer does not produce
fixed-length tokens — two issuances (same random part) at timestamps 35 and 36
differ in length, because the token embeds the timestamp's base-36 expansion. -/
theorem c8_variable_token_length :
    (generateQRToken 35 "abcdefghij").length
      ≠ (generateQRToken 36 "abcdefghij").length := by
  decide

/-- C8 (amended): the sessions issuer (`crypto.randomBytes(16).toString('hex')`)
always emits tokens of fixed length 32; the lectures issuer
(`` `qr_${Date.now().toString(36)}_${rand}` ``) emits variable-length tokens
carrying embedded structure — the issuing timestamp is recoverable from every
token it produces. -/
theorem c8_issuer_shapes :
    (∀ bs : List Nat, bs.length = 16 → (bytesToHex bs).length = 32)
    ∧ ∀ (t : Nat) (r : String), extractTimestamp (generateQRToken t r) = some t := by
  constructor
  · intro bs hlen
    show (bytesToHexL bs).length = 32
    rw [bytesToHexL_length, hlen]
  · intro t r
    have hdigits : ∀ d ∈ b36Digits t, d < 36 := b36DigitsAux_lt (t + 1) t (by omega)
    have hne2 : b36Digits t ≠ [] := b36DigitsAux_ne_nil (t + 1) t (by omega)
    have hdata : (generateQRToken t r).data
        = 'q' :: 'r' :: '_' :: ((b36Digits t).map b36Char ++ '_' :: r.data) := by
      show (("qr_" ++ toB36 t ++ "_") ++ r).data = _
      rw [strData_append, strData_append, strData_append]
      simp [toB36]
    rw [extractTimestamp, hdata]
    simp only [List.take, List.drop, if_pos rfl]
    rw [takeWhile_append_halt _ _ _ _
      (fun c hc => by
        obtain ⟨d, hd, rfl⟩ := List.mem_map.mp hc
        exact b36Char_ne_sep d (hdigits d hd))
      (by decide)]
    rw [if_neg (fun hnil => hne2 (List.map_eq_nil_iff.mp hnil))]
    rw [fromB36_toB36]
    simp

/-- C8 (witness): a 16-byte draw hex-encodes to 32 characters, and the
timestamp 1700000000000 is read back out of the lecture token built from it. -/
theorem c8_issuer_shapes_witness :
    (bytesToHex [0, 17, 34, 51, 68, 85, 102, 119, 136, 153, 170, 187, 204, 221,
      238, 255]).length = 32
    ∧ extractTimestamp (generateQRToken 1700000000000 "abc123def")
        = some 1700000000000 :=
  ⟨c8_issuer_shapes.1 _ (by decide), c8_issuer_shapes.2 1700000000000 "abc123def"⟩
